import Mathlib

/-!
Shallow embedding of `src/server.py`, a small aiohttp + SQLAlchemy CRUD
service for two entities, `users` and `advertisements`.

Modelling choices:
* JSON values are a small inductive type `JSON`.
* The database is a `DB` record: lists of rows plus the serial counters the
  storage layer uses to assign primary keys, and an abstract clock `now`
  supplying the `server_default=func.now()` value of
  `advertisements.creation_time`.  Timestamps are abstract ticks.
* Each aiohttp handler becomes a pure function `DB → ... → Outcome × DB`.
  `Outcome` distinguishes (a) a real `web.Response` / raised
  `web.HTTPException` carrying a status and a JSON body, (b) a bare Python
  value returned by a handler that is *not* a response object (aiohttp
  rejects such returns), and (c) an exception that the handler does not
  catch (e.g. `pydantic.ValidationError`).  `dispatch` models how aiohttp
  translates each outcome into the HTTP status/body the client sees:
  a non-Response return or an unhandled exception becomes a bare 500.
* pydantic validation of the four models is embedded directly: required
  fields must be present with the declared type, `Optional` fields may be
  absent or null, unrecognized fields are ignored (pydantic v1 default
  config).  Numeric-to-string coercion edge cases of pydantic are not
  relied upon by any theorem below.
* `IntegrityError` arises exactly where the schema constraints are
  violated at commit: a duplicate `users.username` (unique), and an
  `advertisements.user_id` not matching any `users.id` (foreign key).
* The username column is String(60).  Postgres evaluates that bound when
  the INSERT or UPDATE assigns the value, before any constraint check: an
  over-length string raises an error - surfaced by the driver as a
  DataError, which no handler catches - unless the excess characters are
  all spaces, in which case the value is truncated to 60 characters
  (`fitVarchar60`).  Stored rows therefore always fit the column, an
  invariant `UserRow` carries.  The title, description and password
  columns are unbounded String.
-/

inductive JSON where
  | null
  | str (s : String)
  | int (n : Int)
  | bool (b : Bool)
  | arr (xs : List JSON)
  | obj (fields : List (String × JSON))

/-- Looks a key up in the field list of a JSON object (first match wins). -/
def jLookup (fields : List (String × JSON)) (k : String) : Option JSON :=
  (fields.find? (fun p => p.1 == k)).map (fun p => p.2)

/-- Row of the `users` table: `id` primary key, `username` unique not null
and typed String(60) - postgres never stores a value longer than 60
characters in that column, so every row carries the bound as an
invariant - and `password` not null (unbounded String). -/
structure UserRow where
  id : Int
  username : String
  password : String
  husername : username.length ≤ 60

/-- Row of the `advertisements` table: `id` primary key, `title` and
`description` not null, `creation_time` defaulted by the server at insert,
`user_id` a nullable foreign key into `users.id`. -/
structure AdvRow where
  id : Int
  title : String
  description : String
  creation_time : Nat
  user_id : Option Int
deriving Repr, DecidableEq

/-- Database state: the two tables, the serial counters assigning primary
keys, and the storage clock supplying the server default of
`creation_time`. -/
structure DB where
  users : List UserRow
  advs : List AdvRow
  nextUserId : Int
  nextAdvId : Int
  now : Nat

/-- `session.get(User, user_id)`: point query by primary key. -/
def DB.findUser (db : DB) (user_id : Int) : Option UserRow :=
  db.users.find? (fun u => u.id == user_id)

/-- `session.get(Advertisement, adv_id)`: point query by primary key. -/
def DB.findAdv (db : DB) (adv_id : Int) : Option AdvRow :=
  db.advs.find? (fun a => a.id == adv_id)

/-- `datetime.isoformat()` on the abstract clock; the exact text is
irrelevant to every claim, only that it is a string derived from the
timestamp. -/
def isoformat (t : Nat) : String :=
  toString t

/-- What a handler produced, before aiohttp turns it into an HTTP reply. -/
inductive Outcome where
  | response (status : Nat) (body : JSON)
  | rawReturn (value : JSON)
  | unhandled (exc : String)

/-- The body `ApiError` builds: a JSON object with field status set to the
text error and field description set to the message. -/
def errorBody (description : JSON) : JSON :=
  .obj [("status", .str "error"), ("description", description)]

/-- The aiohttp request handling seen from the client: a `web.Response` or a
raised `web.HTTPException` (both `StreamResponse`s) arrives as its status
and JSON body; a handler returning anything else, or dying on an uncaught
exception, produces the default bare 500 error with no JSON body. -/
def dispatch : Outcome → Nat × Option JSON
  | .response s b => (s, some b)
  | .rawReturn _ => (500, none)
  | .unhandled _ => (500, none)

/-- Validated data of `CreateUserModel` (`username: str`, `password: str`,
both required). -/
structure CreateUserData where
  username : String
  password : String
deriving Repr, DecidableEq

/-- `CreateUserModel(**json_data).dict()`: both fields required strings;
extra keys ignored; a non-dict body or a missing/badly-typed field raises
a validation error (`none`). -/
def CreateUserModel.validate : JSON → Option CreateUserData
  | .obj fs =>
    match jLookup fs "username", jLookup fs "password" with
    | some (.str u), some (.str p) => some ⟨u, p⟩
    | _, _ => none
  | _ => none

/-- Validated data of `CreateAdvModel` (`title: str`, `description: str`,
`user_id: int`, all required). -/
structure CreateAdvData where
  title : String
  description : String
  user_id : Int
deriving Repr, DecidableEq

/-- `CreateAdvModel(**json_data).dict()`. -/
def CreateAdvModel.validate : JSON → Option CreateAdvData
  | .obj fs =>
    match jLookup fs "title", jLookup fs "description", jLookup fs "user_id" with
    | some (.str t), some (.str d), some (.int uid) => some ⟨t, d, uid⟩
    | _, _, _ => none
  | _ => none

/-- Normalized output of a patch model after `.dict(exclude_none=True)`:
`none` means the field was absent from the request body or null. -/
structure PatchUserData where
  username : Option String
  password : Option String
deriving Repr, DecidableEq

/-- An `Optional[str]` pydantic field: absent or null is fine (and later
dropped by `exclude_none`), a string is kept, anything else is a
validation error. -/
def checkOptStr : Option JSON → Option (Option String)
  | none => some none
  | some .null => some none
  | some (.str s) => some (some s)
  | some _ => none

/-- `PatchUserModel(**json_data).dict(exclude_none=True)`. -/
def PatchUserModel.validate : JSON → Option PatchUserData
  | .obj fs =>
    match checkOptStr (jLookup fs "username"), checkOptStr (jLookup fs "password") with
    | some u, some p => some ⟨u, p⟩
    | _, _ => none
  | _ => none

/-- Normalized output of `PatchAdvModel.dict(exclude_none=True)`. -/
structure PatchAdvData where
  title : Option String
  description : Option String
deriving Repr, DecidableEq

/-- `PatchAdvModel(**json_data).dict(exclude_none=True)`. -/
def PatchAdvModel.validate : JSON → Option PatchAdvData
  | .obj fs =>
    match checkOptStr (jLookup fs "title"), checkOptStr (jLookup fs "description") with
    | some t, some d => some ⟨t, d⟩
    | _, _ => none
  | _ => none

/-- The varchar bound of the username column, String(60), as postgres
enforces it when a row value is assigned: a string of at most 60
characters is stored as is; a longer one whose excess characters are all
spaces is truncated to the first 60; any other longer string raises an
error (a DataError at the driver level, which no handler catches). -/
def fitVarchar60 (s : String) : Option { t : String // t.length ≤ 60 } :=
  if h : s.length ≤ 60 then some ⟨s, h⟩
  else if (s.data.drop 60).all (fun c => c == ' ') then
    some ⟨⟨s.data.take 60⟩, List.length_take_le 60 s.data⟩
  else none

/-- A normalized user patch whose username assignment already passed the
varchar bound of the column. -/
structure FitUserPatch where
  username : Option { t : String // t.length ≤ 60 }
  password : Option String

/-- The varchar bound applied to the username a user patch assigns, at the
point the UPDATE is evaluated: a patch not touching username is
unaffected, one assigning a fitting (possibly space-truncated) value
passes with it, and any other raises the uncaught DataError (`none`). -/
def fitUserPatch (p : PatchUserData) : Option FitUserPatch :=
  match p.username with
  | none => some ⟨none, p.password⟩
  | some s => (fitVarchar60 s).map (fun t => ⟨some t, p.password⟩)

/-- The `for column, value in json_data.items(): setattr(user, column, value)`
loop of `UserView.patch`, applied to the normalized patch dict (with the
username assignment already checked against the column bound). -/
def applyUserPatch (u : UserRow) (q : FitUserPatch) : UserRow :=
  match q.username with
  | none => { u with password := q.password.getD u.password }
  | some t => ⟨u.id, t.1, q.password.getD u.password, t.2⟩

/-- The `setattr` loop of `AdvView.patch` applied to the normalized patch
dict: only `title` and `description` can appear in it. -/
def applyAdvPatch (a : AdvRow) (p : PatchAdvData) : AdvRow :=
  { a with
    title := p.title.getD a.title
    description := p.description.getD a.description }

/-- `UserView.get`: parse id, look the user up (404 if absent), answer 200
with the fields id_user and username - the password is
not serialized. -/
def UserView.get (db : DB) (user_id : Int) : Outcome × DB :=
  match db.findUser user_id with
  | none => (.response 404 (errorBody (.str "user not found")), db)
  | some u =>
    (.response 200 (.obj [("id_user", .int u.id), ("username", .str u.username)]), db)

/-- `UserView.post`: validate the body against `CreateUserModel` (an
invalid body raises `pydantic.ValidationError`, which nothing catches),
insert the new row, and on `IntegrityError` - the unique constraint on
`username` - raise `BadRequest`.  At the insert, postgres first evaluates
the username against the String(60) column bound: an over-length value
raises a DataError, which the handler (catching only IntegrityError) does
not catch; the unique constraint is then checked against the stored
(possibly truncated) value.  On success the handler returns the plain
dict holding the assigned id, not a `web.json_response`. -/
def UserView.post (db : DB) (body : JSON) : Outcome × DB :=
  match CreateUserModel.validate body with
  | none => (.unhandled "pydantic.ValidationError", db)
  | some d =>
    match fitVarchar60 d.username with
    | none => (.unhandled "sqlalchemy.exc.DataError", db)
    | some uname =>
      if db.users.any (fun u => u.username == uname.1) then
        (.response 400 (errorBody (.str "user already exists")), db)
      else
        (.rawReturn (.obj [("id", .int db.nextUserId)]),
         { db with
           users := db.users ++ [⟨db.nextUserId, uname.1, d.password, uname.2⟩]
           nextUserId := db.nextUserId + 1 })

/-- `UserView.delete`: look the user up (404 if absent), delete the row,
commit, answer 200 with status succes (spelled so in the source). -/
def UserView.delete (db : DB) (user_id : Int) : Outcome × DB :=
  match db.findUser user_id with
  | none => (.response 404 (errorBody (.str "user not found")), db)
  | some _ =>
    (.response 200 (.obj [("status", .str "succes")]),
     { db with users := db.users.filter (fun u => u.id != user_id) })

/-- Whether committing a user patch violates the unique constraint on
`username`: the patch sets `username` to a value another row already
holds. -/
def userPatchConflict (db : DB) (user_id : Int) (q : FitUserPatch) : Bool :=
  match q.username with
  | some t => db.users.any (fun v => v.id != user_id && v.username == t.1)
  | none => false

/-- `UserView.patch`: validate the body against `PatchUserModel` (an
invalid body raises uncaught), look the user up (404 if absent), overwrite
the fields present in the normalized dict, commit.  The commit evaluates
an assigned username against the String(60) column bound (an over-length
value raises an uncaught DataError) and can then hit the unique constraint
when the patch renames the user onto the username of another row;
`UserView.patch` has no handler for either, so both exceptions escape. -/
def UserView.patch (db : DB) (user_id : Int) (body : JSON) : Outcome × DB :=
  match PatchUserModel.validate body with
  | none => (.unhandled "pydantic.ValidationError", db)
  | some p =>
    match db.findUser user_id with
    | none => (.response 404 (errorBody (.str "user not found")), db)
    | some _ =>
      match fitUserPatch p with
      | none => (.unhandled "sqlalchemy.exc.DataError", db)
      | some q =>
        if userPatchConflict db user_id q then
          (.unhandled "sqlalchemy.exc.IntegrityError", db)
        else
          (.response 200 (.obj [("status", .str "success")]),
           { db with
             users := db.users.map
               (fun v => if v.id == user_id then applyUserPatch v q else v) })

/-- `AdvView.get`: look the advertisement up (404 if absent), answer 200
with title, description, ISO-formatted creation date and owner id. -/
def AdvView.get (db : DB) (adv_id : Int) : Outcome × DB :=
  match db.findAdv adv_id with
  | none => (.response 404 (errorBody (.str "advertisement not found")), db)
  | some a =>
    (.response 200 (.obj
      [("title", .str a.title), ("description", .str a.description),
       ("date", .str (isoformat a.creation_time)),
       ("user_id", match a.user_id with | some i => .int i | none => .null)]), db)

/-- `AdvView.post`: validate against `CreateAdvModel` (invalid body raises
uncaught), insert; `IntegrityError` here is the foreign key
`user_id -> users.id` failing, translated to `BadRequest`.  Like
`UserView.post`, the success path returns a bare dict. -/
def AdvView.post (db : DB) (body : JSON) : Outcome × DB :=
  match CreateAdvModel.validate body with
  | none => (.unhandled "pydantic.ValidationError", db)
  | some d =>
    if db.users.any (fun u => u.id == d.user_id) then
      (.rawReturn (.obj [("id", .int db.nextAdvId)]),
       { db with
         advs := db.advs ++ [⟨db.nextAdvId, d.title, d.description, db.now, some d.user_id⟩]
         nextAdvId := db.nextAdvId + 1 })
    else
      (.response 400 (errorBody (.str "advertisement already exists")), db)

/-- `AdvView.delete`: look the advertisement up (404 if absent), delete,
commit, answer 200 with status succes (spelled so in the source). -/
def AdvView.delete (db : DB) (adv_id : Int) : Outcome × DB :=
  match db.findAdv adv_id with
  | none => (.response 404 (errorBody (.str "advertisement not found")), db)
  | some _ =>
    (.response 200 (.obj [("status", .str "succes")]),
     { db with advs := db.advs.filter (fun a => a.id != adv_id) })

/-- `AdvView.patch`: validate against `PatchAdvModel` (invalid body raises
uncaught), look the advertisement up (404 if absent), overwrite the fields
present in the normalized dict, commit (no constraint can fire: title and
description carry no unique or foreign-key constraint). -/
def AdvView.patch (db : DB) (adv_id : Int) (body : JSON) : Outcome × DB :=
  match PatchAdvModel.validate body with
  | none => (.unhandled "pydantic.ValidationError", db)
  | some p =>
    match db.findAdv adv_id with
    | none => (.response 404 (errorBody (.str "advertisement not found")), db)
    | some _ =>
      (.response 200 (.obj [("status", .str "success")]),
       { db with
         advs := db.advs.map
           (fun a => if a.id == adv_id then applyAdvPatch a p else a) })

/-- The `\d+` matcher of the dynamic route segments
`/users/\x7buser_id:\d+\x7d` and `/advs/\x7badv_id:\d+\x7d`: one or more
decimal digits and nothing else. -/
def routeSegMatches (s : String) : Bool :=
  !s.data.isEmpty && s.data.all Char.isDigit

/-- Digit-string to number, the core of the Python call int(s). -/
def parseDigits (cs : List Char) : Option Nat :=
  if !cs.isEmpty && cs.all Char.isDigit then
    some (cs.foldl (fun acc c => acc * 10 + (c.toNat - 48)) 0)
  else none

/-- The Python call int(s) on a text argument: optional surrounding spaces, an
optional sign, then decimal digits; anything else raises `ValueError`
(`none`).  Digit-grouping underscores, accepted by CPython, are not
modelled - no theorem below evaluates `pyInt` off the digits-only route
segments. -/
def pyInt (s : String) : Option Int :=
  let cs := ((s.data.dropWhile (fun c => c == ' ')).reverse.dropWhile
    (fun c => c == ' ')).reverse
  match cs with
  | [] => none
  | c :: rest =>
    if c == '-' then (parseDigits rest).map (fun n => -(n : Int))
    else if c == '+' then (parseDigits rest).map (fun n => (n : Int))
    else (parseDigits cs).map (fun n => (n : Int))

/-- The database right after `Base.metadata.create_all` on a fresh
instance: both tables empty, both serial counters at 1. -/
def DB.empty : DB :=
  ⟨[], [], 1, 1, 0⟩

/-- A point query on a table after an id-preserving conditional update: the
row found before is found updated, rows failing the key test are left
alone by the update. -/
theorem findMapUpdate {α : Type} (p : α → Bool) (f : α → α)
    (hp : ∀ x, p x = true → p (f x) = true) :
    ∀ (l : List α) (a : α), l.find? p = some a →
      (l.map (fun x => if p x then f x else x)).find? p = some (f a) := by
  intro l
  induction l with
  | nil => intro a h; simp [List.find?] at h
  | cons x xs ih =>
    intro a h
    by_cases hx : p x = true
    · rw [List.find?_cons_of_pos _ hx] at h
      injection h with h
      subst h
      simp only [List.map_cons, if_pos hx]
      exact List.find?_cons_of_pos _ (hp x hx)
    · rw [List.find?_cons_of_neg _ hx] at h
      simp only [List.map_cons, if_neg hx]
      rw [List.find?_cons_of_neg _ hx]
      exact ih a h

/-- A point query on a table right after an insert: when no existing row
matches the key, the freshly appended row is the one found. -/
theorem findAppendLast {α : Type} (p : α → Bool) (l : List α) (x : α)
    (hl : ∀ y ∈ l, p y = false) (hx : p x = true) :
    (l ++ [x]).find? p = some x := by
  induction l with
  | nil => exact List.find?_cons_of_pos _ hx
  | cons y ys ih =>
    have hy : ¬ p y = true := by simp [hl y (by simp)]
    simp only [List.cons_append]
    rw [List.find?_cons_of_neg _ hy]
    exact ih (fun z hz => hl z (by simp [hz]))

/-- A decimal digit is not a space, a minus sign or a plus sign. -/
theorem digitNotSpecial (c : Char) (h : c.isDigit = true) :
    (c == ' ') = false ∧ (c == '-') = false ∧ (c == '+') = false := by
  refine ⟨?_, ?_, ?_⟩
  · by_cases hc : c = ' '
    · subst hc; exact absurd h (by decide)
    · exact beq_eq_false_iff_ne.mpr hc
  · by_cases hc : c = '-'
    · subst hc; exact absurd h (by decide)
    · exact beq_eq_false_iff_ne.mpr hc
  · by_cases hc : c = '+'
    · subst hc; exact absurd h (by decide)
    · exact beq_eq_false_iff_ne.mpr hc

/-- Stripping leading spaces from a nonempty all-digit string is the
identity. -/
theorem dropWhileSpacesOfDigits (l : List Char) (hne : l ≠ [])
    (hd : l.all Char.isDigit = true) :
    l.dropWhile (fun c => c == ' ') = l := by
  cases l with
  | nil => exact absurd rfl hne
  | cons c rest =>
    have hc : c.isDigit = true := List.all_eq_true.mp hd c (by simp)
    simp [List.dropWhile_cons, (digitNotSpecial c hc).1]

/-- Claim C1 (code bug): the claim says every valid create payload gets a
200 with a JSON body holding the assigned id.  On the code, both create
handlers persist the row but return a bare dict instead of a
`web.json_response`; aiohttp rejects a handler return that is not a
response, so the client receives a bare 500 - although the entity was
committed.  This theorem evaluates both creates at valid payloads: the
row is inserted and the id is in the raw returned value, yet the
dispatched reply is status 500 with no body. -/
theorem c1_create_bare_dict_client_500 :
    UserView.post DB.empty (.obj [("username", .str "alice"), ("password", .str "pw1")]) =
      (.rawReturn (.obj [("id", .int 1)]), ⟨[⟨1, "alice", "pw1", by decide⟩], [], 2, 1, 0⟩) ∧
    dispatch (UserView.post DB.empty
      (.obj [("username", .str "alice"), ("password", .str "pw1")])).1 = (500, none) ∧
    AdvView.post ⟨[⟨1, "alice", "pw1", by decide⟩], [], 2, 1, 0⟩
        (.obj [("title", .str "bike"), ("description", .str "red"), ("user_id", .int 1)]) =
      (.rawReturn (.obj [("id", .int 1)]),
       ⟨[⟨1, "alice", "pw1", by decide⟩], [⟨1, "bike", "red", 0, some 1⟩], 2, 2, 0⟩) ∧
    dispatch (AdvView.post ⟨[⟨1, "alice", "pw1", by decide⟩], [], 2, 1, 0⟩
      (.obj [("title", .str "bike"), ("description", .str "red"), ("user_id", .int 1)])).1 =
      (500, none) :=
  ⟨rfl, rfl, rfl, rfl⟩

/-- Claim C2, counterexample: a create body failing validation (here the
empty object, missing both required fields) does not produce a 400: the
uncaught `pydantic.ValidationError` surfaces as the default 500. -/
theorem c2_validation_failure_not_400 :
    CreateUserModel.validate (.obj []) = none ∧
    dispatch (UserView.post DB.empty (.obj [])).1 = (500, none) ∧
    (dispatch (UserView.post DB.empty (.obj [])).1).1 ≠ 400 :=
  ⟨rfl, rfl, by decide⟩

/-- Claim C2 as amended: a request body failing validation against the
operation validation shape makes the handler die on an uncaught
`pydantic.ValidationError`; the client receives the default 500 error with
no structured body (not a 400), and the database is unchanged. -/
theorem c2_invalid_body_unhandled_500 (db : DB) (body : JSON) (i : Int) :
    (CreateUserModel.validate body = none →
      UserView.post db body = (.unhandled "pydantic.ValidationError", db) ∧
      dispatch (UserView.post db body).1 = (500, none)) ∧
    (CreateAdvModel.validate body = none →
      AdvView.post db body = (.unhandled "pydantic.ValidationError", db) ∧
      dispatch (AdvView.post db body).1 = (500, none)) ∧
    (PatchUserModel.validate body = none →
      UserView.patch db i body = (.unhandled "pydantic.ValidationError", db) ∧
      dispatch (UserView.patch db i body).1 = (500, none)) ∧
    (PatchAdvModel.validate body = none →
      AdvView.patch db i body = (.unhandled "pydantic.ValidationError", db) ∧
      dispatch (AdvView.patch db i body).1 = (500, none)) := by
  refine ⟨fun h => ?_, fun h => ?_, fun h => ?_, fun h => ?_⟩
  · have h1 : UserView.post db body = (.unhandled "pydantic.ValidationError", db) := by
      simp [UserView.post, h]
    exact ⟨h1, by rw [h1]; rfl⟩
  · have h1 : AdvView.post db body = (.unhandled "pydantic.ValidationError", db) := by
      simp [AdvView.post, h]
    exact ⟨h1, by rw [h1]; rfl⟩
  · have h1 : UserView.patch db i body = (.unhandled "pydantic.ValidationError", db) := by
      simp [UserView.patch, h]
    exact ⟨h1, by rw [h1]; rfl⟩
  · have h1 : AdvView.patch db i body = (.unhandled "pydantic.ValidationError", db) := by
      simp [AdvView.patch, h]
    exact ⟨h1, by rw [h1]; rfl⟩

/-- Witness for the amended claim C2, at a body missing the required
password field. -/
theorem c2_invalid_body_unhandled_500_witness :
    CreateUserModel.validate (.obj [("username", .str "alice")]) = none ∧
    UserView.post DB.empty (.obj [("username", .str "alice")]) =
      (.unhandled "pydantic.ValidationError", DB.empty) :=
  ⟨rfl, ((c2_invalid_body_unhandled_500 DB.empty (.obj [("username", .str "alice")]) 0).1 rfl).1⟩

/-- Claim C3: when some stored user already holds the submitted username,
creating another user with that username is answered 400 with the
duplicate-specific description, and the database is returned unchanged -
no second row. -/
theorem c3_duplicate_username_400 (db : DB) (name pw : String)
    (h : db.users.any (fun u => u.username == name) = true) :
    UserView.post db (.obj [("username", .str name), ("password", .str pw)]) =
      (.response 400 (errorBody (.str "user already exists")), db) := by
  have hv : CreateUserModel.validate
      (.obj [("username", .str name), ("password", .str pw)]) = some ⟨name, pw⟩ := rfl
  obtain ⟨u, hu, hequ⟩ := List.any_eq_true.mp h
  have hlen : name.length ≤ 60 := by
    have he : u.username = name := by simpa using hequ
    rw [← he]
    exact u.husername
  simp [UserView.post, hv, fitVarchar60, hlen, h]

/-- Witness for claim C3: a second alice is refused and the table still
holds one row. -/
theorem c3_duplicate_username_400_witness :
    ((⟨[⟨1, "alice", "pw1", by decide⟩], [], 2, 1, 0⟩ : DB).users.any
        (fun u => u.username == "alice") = true) ∧
    UserView.post ⟨[⟨1, "alice", "pw1", by decide⟩], [], 2, 1, 0⟩
        (.obj [("username", .str "alice"), ("password", .str "pw2")]) =
      (.response 400 (errorBody (.str "user already exists")),
       ⟨[⟨1, "alice", "pw1", by decide⟩], [], 2, 1, 0⟩) :=
  ⟨by decide, c3_duplicate_username_400 _ "alice" "pw2" (by decide)⟩

/-- Claim C4: patching an advertisement with a body holding only a title
answers 200 with status success and overwrites title alone - description,
creation timestamp, owning user reference and identity are unchanged; in
general the patched row differs from the old one exactly in the fields the
normalized patch holds. -/
theorem c4_adv_patch_title_frame (db : DB) (i : Int) (t : String) (a : AdvRow)
    (h : db.findAdv i = some a) :
    (AdvView.patch db i (.obj [("title", .str t)])).1 =
      .response 200 (.obj [("status", .str "success")]) ∧
    (AdvView.patch db i (.obj [("title", .str t)])).2.findAdv i =
      some ⟨a.id, t, a.description, a.creation_time, a.user_id⟩ ∧
    (∀ body p, PatchAdvModel.validate body = some p →
      (AdvView.patch db i body).2.findAdv i =
        some ⟨a.id, p.title.getD a.title, p.description.getD a.description,
              a.creation_time, a.user_id⟩) := by
  have key : ∀ body p, PatchAdvModel.validate body = some p →
      (AdvView.patch db i body).2.findAdv i =
        some ⟨a.id, p.title.getD a.title, p.description.getD a.description,
              a.creation_time, a.user_id⟩ := by
    intro body p hp
    have h2 : (AdvView.patch db i body).2 =
        { db with advs := (db.advs.map
            (fun x => if x.id == i then applyAdvPatch x p else x)) } := by
      simp [AdvView.patch, hp, h]
    rw [h2]
    show (db.advs.map (fun x => if (x.id == i) then applyAdvPatch x p else x)).find?
        (fun x => x.id == i) = _
    have hres := findMapUpdate (fun x : AdvRow => x.id == i) (fun x => applyAdvPatch x p)
      (fun x hx => by simpa [applyAdvPatch] using hx) db.advs a h
    rw [hres]
    rfl
  have hv : PatchAdvModel.validate (.obj [("title", .str t)]) = some ⟨some t, none⟩ := rfl
  refine ⟨?_, ?_, key⟩
  · simp [AdvView.patch, hv, h]
  · exact key (.obj [("title", .str t)]) ⟨some t, none⟩ rfl

/-- Witness for claim C4 at a one-row advertisements table. -/
theorem c4_adv_patch_title_frame_witness :
    (⟨[⟨1, "alice", "pw", by decide⟩], [⟨1, "old", "desc", 5, some 1⟩], 2, 2, 7⟩ : DB).findAdv 1 =
      some ⟨1, "old", "desc", 5, some 1⟩ ∧
    (AdvView.patch ⟨[⟨1, "alice", "pw", by decide⟩], [⟨1, "old", "desc", 5, some 1⟩], 2, 2, 7⟩ 1
        (.obj [("title", .str "new")])).2.findAdv 1 =
      some ⟨1, "new", "desc", 5, some 1⟩ :=
  ⟨rfl, (c4_adv_patch_title_frame ⟨[⟨1, "alice", "pw", by decide⟩], [⟨1, "old", "desc", 5, some 1⟩], 2, 2, 7⟩
    1 "new" ⟨1, "old", "desc", 5, some 1⟩ rfl).2.1⟩

/-- Claim C5, counterexample: a 61-character username is a valid create
payload under the create validation shape, but the claimed round-trip
fails there: postgres refuses the over-length value for the String(60)
username column, the resulting DataError is caught by nothing (the create
handler catches only IntegrityError), the client gets a bare 500, no row
is persisted and no identity is returned - so no subsequent read can
return the submitted values. -/
theorem c5_long_username_no_roundtrip :
    CreateUserModel.validate (.obj [("username",
        .str "aaaaaaaaaaaaaaaaaaaaaaaaaaaaaaaaaaaaaaaaaaaaaaaaaaaaaaaaaaaaa"),
      ("password", .str "pw")]) =
      some ⟨"aaaaaaaaaaaaaaaaaaaaaaaaaaaaaaaaaaaaaaaaaaaaaaaaaaaaaaaaaaaaa", "pw"⟩ ∧
    UserView.post DB.empty (.obj [("username",
        .str "aaaaaaaaaaaaaaaaaaaaaaaaaaaaaaaaaaaaaaaaaaaaaaaaaaaaaaaaaaaaa"),
      ("password", .str "pw")]) =
      (.unhandled "sqlalchemy.exc.DataError", DB.empty) ∧
    dispatch (UserView.post DB.empty (.obj [("username",
        .str "aaaaaaaaaaaaaaaaaaaaaaaaaaaaaaaaaaaaaaaaaaaaaaaaaaaaaaaaaaaaa"),
      ("password", .str "pw")])).1 = (500, none) :=
  ⟨rfl, rfl, rfl⟩

/-- Claim C5 as amended: for valid create payloads whose username fits the
String(60) column, creating a user (respectively an advertisement) from a
valid payload hands back the id the storage assigned, and reading that id
afterwards returns exactly the submitted field values (username for the
user; title, description and owner for the advertisement, plus the insert
timestamp).  The freshness hypotheses are the serial-counter invariant of
the storage layer and the preconditions for a commit without constraint
violations. -/
theorem c5_create_read_roundtrip (db : DB) (name pw t d : String) (uid : Int)
    (hlen : name.length ≤ 60)
    (hname : db.users.any (fun u => u.username == name) = false)
    (hufresh : ∀ u ∈ db.users, u.id ≠ db.nextUserId)
    (huid : db.users.any (fun u => u.id == uid) = true)
    (hafresh : ∀ a ∈ db.advs, a.id ≠ db.nextAdvId) :
    (UserView.post db (.obj [("username", .str name), ("password", .str pw)])).1 =
      .rawReturn (.obj [("id", .int db.nextUserId)]) ∧
    (UserView.get (UserView.post db
        (.obj [("username", .str name), ("password", .str pw)])).2 db.nextUserId).1 =
      .response 200 (.obj [("id_user", .int db.nextUserId), ("username", .str name)]) ∧
    (AdvView.post db (.obj [("title", .str t), ("description", .str d),
        ("user_id", .int uid)])).1 =
      .rawReturn (.obj [("id", .int db.nextAdvId)]) ∧
    (AdvView.get (AdvView.post db (.obj [("title", .str t), ("description", .str d),
        ("user_id", .int uid)])).2 db.nextAdvId).1 =
      .response 200 (.obj [("title", .str t), ("description", .str d),
        ("date", .str (isoformat db.now)), ("user_id", .int uid)]) := by
  have hv : CreateUserModel.validate
      (.obj [("username", .str name), ("password", .str pw)]) = some ⟨name, pw⟩ := rfl
  have hpost : UserView.post db (.obj [("username", .str name), ("password", .str pw)]) =
      (.rawReturn (.obj [("id", .int db.nextUserId)]),
       { db with users := db.users ++ [⟨db.nextUserId, name, pw, hlen⟩],
                 nextUserId := db.nextUserId + 1 }) := by
    simp [UserView.post, hv, fitVarchar60, hlen, hname]
  have hfindu : (UserView.post db
      (.obj [("username", .str name), ("password", .str pw)])).2.findUser db.nextUserId =
      some ⟨db.nextUserId, name, pw, hlen⟩ := by
    rw [hpost]
    show (db.users ++ [(⟨db.nextUserId, name, pw, hlen⟩ : UserRow)]).find?
        (fun u => u.id == db.nextUserId) = _
    exact findAppendLast _ _ _
      (fun y hy => beq_eq_false_iff_ne.mpr (hufresh y hy)) (by simp)
  have hva : CreateAdvModel.validate (.obj [("title", .str t), ("description", .str d),
      ("user_id", .int uid)]) = some ⟨t, d, uid⟩ := rfl
  have hposta : AdvView.post db (.obj [("title", .str t), ("description", .str d),
      ("user_id", .int uid)]) =
      (.rawReturn (.obj [("id", .int db.nextAdvId)]),
       { db with advs := db.advs ++ [⟨db.nextAdvId, t, d, db.now, some uid⟩],
                 nextAdvId := db.nextAdvId + 1 }) := by
    simp [AdvView.post, hva, huid]
  have hfinda : (AdvView.post db (.obj [("title", .str t), ("description", .str d),
      ("user_id", .int uid)])).2.findAdv db.nextAdvId =
      some ⟨db.nextAdvId, t, d, db.now, some uid⟩ := by
    rw [hposta]
    show (db.advs ++ [(⟨db.nextAdvId, t, d, db.now, some uid⟩ : AdvRow)]).find?
        (fun x => x.id == db.nextAdvId) = _
    exact findAppendLast _ _ _
      (fun y hy => beq_eq_false_iff_ne.mpr (hafresh y hy)) (by simp)
  refine ⟨by rw [hpost], ?_, by rw [hposta], ?_⟩
  · simp [UserView.get, hfindu]
  · simp [AdvView.get, hfinda]

/-- Witness for the amended claim C5 on a one-user database. -/
theorem c5_create_read_roundtrip_witness :
    ("alice".length ≤ 60) ∧
    ((⟨[⟨1, "bob", "x", by decide⟩], [], 2, 1, 9⟩ : DB).users.any
        (fun u => u.username == "alice") = false) ∧
    (∀ u ∈ (⟨[⟨1, "bob", "x", by decide⟩], [], 2, 1, 9⟩ : DB).users,
      u.id ≠ (⟨[⟨1, "bob", "x", by decide⟩], [], 2, 1, 9⟩ : DB).nextUserId) ∧
    ((⟨[⟨1, "bob", "x", by decide⟩], [], 2, 1, 9⟩ : DB).users.any (fun u => u.id == 1) = true) ∧
    (∀ a ∈ (⟨[⟨1, "bob", "x", by decide⟩], [], 2, 1, 9⟩ : DB).advs,
      a.id ≠ (⟨[⟨1, "bob", "x", by decide⟩], [], 2, 1, 9⟩ : DB).nextAdvId) ∧
    (AdvView.get (AdvView.post (⟨[⟨1, "bob", "x", by decide⟩], [], 2, 1, 9⟩ : DB)
        (.obj [("title", .str "bike"), ("description", .str "red"),
               ("user_id", .int 1)])).2 1).1 =
      .response 200 (.obj [("title", .str "bike"), ("description", .str "red"),
        ("date", .str (isoformat 9)), ("user_id", .int 1)]) := by
  refine ⟨by decide, by decide, by decide, by decide, by decide, ?_⟩
  exact (c5_create_read_roundtrip ⟨[⟨1, "bob", "x", by decide⟩], [], 2, 1, 9⟩
    "alice" "pw" "bike" "red" 1 (by decide) (by decide) (by decide) (by decide)
    (by decide)).2.2.2

/-- Claim C6: when no row holds the requested primary key, each of read,
patch (with a body passing its validation) and delete answers 404 with the
structured error body - status error plus a description - for users and
advertisements alike, and the database is unchanged. -/
theorem c6_missing_id_404 (db : DB) (i : Int) (ubody abody : JSON)
    (pu : PatchUserData) (pa : PatchAdvData)
    (hu : db.findUser i = none) (ha : db.findAdv i = none)
    (hpu : PatchUserModel.validate ubody = some pu)
    (hpa : PatchAdvModel.validate abody = some pa) :
    UserView.get db i = (.response 404 (errorBody (.str "user not found")), db) ∧
    UserView.delete db i = (.response 404 (errorBody (.str "user not found")), db) ∧
    UserView.patch db i ubody = (.response 404 (errorBody (.str "user not found")), db) ∧
    AdvView.get db i = (.response 404 (errorBody (.str "advertisement not found")), db) ∧
    AdvView.delete db i =
      (.response 404 (errorBody (.str "advertisement not found")), db) ∧
    AdvView.patch db i abody =
      (.response 404 (errorBody (.str "advertisement not found")), db) := by
  refine ⟨?_, ?_, ?_, ?_, ?_, ?_⟩ <;>
    simp [UserView.get, UserView.delete, UserView.patch, AdvView.get, AdvView.delete,
      AdvView.patch, hu, ha, hpu, hpa]

/-- Witness for claim C6 on the empty database with the empty patch body. -/
theorem c6_missing_id_404_witness :
    DB.empty.findUser 1 = none ∧
    PatchUserModel.validate (.obj []) = some ⟨none, none⟩ ∧
    UserView.get DB.empty 1 =
      (.response 404 (errorBody (.str "user not found")), DB.empty) ∧
    AdvView.patch DB.empty 1 (.obj []) =
      (.response 404 (errorBody (.str "advertisement not found")), DB.empty) :=
  ⟨rfl, rfl,
   (c6_missing_id_404 DB.empty 1 (.obj []) (.obj []) ⟨none, none⟩ ⟨none, none⟩
      rfl rfl rfl rfl).1,
   (c6_missing_id_404 DB.empty 1 (.obj []) (.obj []) ⟨none, none⟩ ⟨none, none⟩
      rfl rfl rfl rfl).2.2.2.2.2⟩

/-- Claim C7: deleting a stored user or advertisement answers 200 with the
status succes body (spelled so in the source), and a read of the same
identity afterwards answers 404. -/
theorem c7_delete_then_read_404 (db : DB) (i : Int) (u : UserRow) (a : AdvRow)
    (hu : db.findUser i = some u) (ha : db.findAdv i = some a) :
    (UserView.delete db i).1 = .response 200 (.obj [("status", .str "succes")]) ∧
    (UserView.get (UserView.delete db i).2 i).1 =
      .response 404 (errorBody (.str "user not found")) ∧
    (AdvView.delete db i).1 = .response 200 (.obj [("status", .str "succes")]) ∧
    (AdvView.get (AdvView.delete db i).2 i).1 =
      .response 404 (errorBody (.str "advertisement not found")) := by
  have hdel : UserView.delete db i =
      (.response 200 (.obj [("status", .str "succes")]),
       { db with users := db.users.filter (fun v => v.id != i) }) := by
    simp [UserView.delete, hu]
  have hfind : (UserView.delete db i).2.findUser i = none := by
    rw [hdel]
    show (db.users.filter (fun v => v.id != i)).find? (fun v => v.id == i) = none
    rw [List.find?_eq_none]
    intro x hx
    have hmem := (List.mem_filter.mp hx).2
    simp only [bne_iff_ne, ne_eq] at hmem
    simp [hmem]
  have hdela : AdvView.delete db i =
      (.response 200 (.obj [("status", .str "succes")]),
       { db with advs := db.advs.filter (fun v => v.id != i) }) := by
    simp [AdvView.delete, ha]
  have hfinda : (AdvView.delete db i).2.findAdv i = none := by
    rw [hdela]
    show (db.advs.filter (fun v => v.id != i)).find? (fun v => v.id == i) = none
    rw [List.find?_eq_none]
    intro x hx
    have hmem := (List.mem_filter.mp hx).2
    simp only [bne_iff_ne, ne_eq] at hmem
    simp [hmem]
  refine ⟨by rw [hdel], ?_, by rw [hdela], ?_⟩
  · simp [UserView.get, hfind]
  · simp [AdvView.get, hfinda]

/-- Witness for claim C7 on a database holding one user and one
advertisement, both with identity 1. -/
theorem c7_delete_then_read_404_witness :
    (⟨[⟨1, "alice", "pw", by decide⟩], [⟨1, "bike", "red", 3, some 1⟩], 2, 2, 4⟩ : DB).findUser 1 =
      some ⟨1, "alice", "pw", by decide⟩ ∧
    (UserView.get (UserView.delete
        ⟨[⟨1, "alice", "pw", by decide⟩], [⟨1, "bike", "red", 3, some 1⟩], 2, 2, 4⟩ 1).2 1).1 =
      .response 404 (errorBody (.str "user not found")) :=
  ⟨rfl, (c7_delete_then_read_404
      ⟨[⟨1, "alice", "pw", by decide⟩], [⟨1, "bike", "red", 3, some 1⟩], 2, 2, 4⟩ 1
      ⟨1, "alice", "pw", by decide⟩ ⟨1, "bike", "red", 3, some 1⟩ rfl rfl).2.1⟩

/-- Claim C8: the user read serializes only the identity and the username;
two stored users agreeing on those two fields - whatever their passwords -
produce byte-identical read replies, so the stored password never reaches
a read response. -/
theorem c8_user_read_password_noninterference (db1 db2 : DB) (i : Int)
    (u1 u2 : UserRow) (h1 : db1.findUser i = some u1) (h2 : db2.findUser i = some u2)
    (hid : u1.id = u2.id) (hname : u1.username = u2.username) :
    (UserView.get db1 i).1 =
      .response 200 (.obj [("id_user", .int u1.id), ("username", .str u1.username)]) ∧
    (UserView.get db1 i).1 = (UserView.get db2 i).1 := by
  have g1 : (UserView.get db1 i).1 =
      .response 200 (.obj [("id_user", .int u1.id), ("username", .str u1.username)]) := by
    simp [UserView.get, h1]
  have g2 : (UserView.get db2 i).1 =
      .response 200 (.obj [("id_user", .int u2.id), ("username", .str u2.username)]) := by
    simp [UserView.get, h2]
  exact ⟨g1, by rw [g1, g2, hid, hname]⟩

/-- Witness for claim C8: two one-user databases differing only in the
stored password answer the read identically. -/
theorem c8_user_read_password_noninterference_witness :
    (⟨[⟨1, "alice", "pw1", by decide⟩], [], 2, 1, 0⟩ : DB).findUser 1 = some ⟨1, "alice", "pw1", by decide⟩ ∧
    (⟨[⟨1, "alice", "pw2", by decide⟩], [], 2, 1, 0⟩ : DB).findUser 1 = some ⟨1, "alice", "pw2", by decide⟩ ∧
    (UserView.get ⟨[⟨1, "alice", "pw1", by decide⟩], [], 2, 1, 0⟩ 1).1 =
      (UserView.get ⟨[⟨1, "alice", "pw2", by decide⟩], [], 2, 1, 0⟩ 1).1 :=
  ⟨rfl, rfl,
   (c8_user_read_password_noninterference
      ⟨[⟨1, "alice", "pw1", by decide⟩], [], 2, 1, 0⟩ ⟨[⟨1, "alice", "pw2", by decide⟩], [], 2, 1, 0⟩ 1
      ⟨1, "alice", "pw1", by decide⟩ ⟨1, "alice", "pw2", by decide⟩ rfl rfl rfl rfl).2⟩

/-- Claim C9: a patch whose body normalizes to the empty update - the
empty object, or recognized fields that are all null - still answers 200
with status success, and the database is returned exactly as it was. -/
theorem c9_empty_patch_noop (db : DB) (i : Int) (ubody abody : JSON)
    (u : UserRow) (a : AdvRow)
    (hu : db.findUser i = some u) (ha : db.findAdv i = some a)
    (hpu : PatchUserModel.validate ubody = some ⟨none, none⟩)
    (hpa : PatchAdvModel.validate abody = some ⟨none, none⟩) :
    UserView.patch db i ubody =
      (.response 200 (.obj [("status", .str "success")]), db) ∧
    AdvView.patch db i abody =
      (.response 200 (.obj [("status", .str "success")]), db) := by
  constructor
  · simp [UserView.patch, hpu, hu, fitUserPatch, userPatchConflict, applyUserPatch]
  · simp [AdvView.patch, hpa, ha, applyAdvPatch]

/-- Witness for claim C9: the empty body patch on a one-row database of
each entity. -/
theorem c9_empty_patch_noop_witness :
    PatchAdvModel.validate (.obj [("title", .null)]) = some ⟨none, none⟩ ∧
    AdvView.patch ⟨[⟨1, "alice", "pw", by decide⟩], [⟨1, "bike", "red", 3, some 1⟩], 2, 2, 4⟩ 1
        (.obj [("title", .null)]) =
      (.response 200 (.obj [("status", .str "success")]),
       ⟨[⟨1, "alice", "pw", by decide⟩], [⟨1, "bike", "red", 3, some 1⟩], 2, 2, 4⟩) :=
  ⟨rfl, (c9_empty_patch_noop
      ⟨[⟨1, "alice", "pw", by decide⟩], [⟨1, "bike", "red", 3, some 1⟩], 2, 2, 4⟩ 1
      (.obj []) (.obj [("title", .null)]) ⟨1, "alice", "pw", by decide⟩ ⟨1, "bike", "red", 3, some 1⟩
      rfl rfl rfl rfl).2⟩

/-- Claim C10: the dynamic route segments accept only all-digit ids, and
the Python int conversion at the top of every read, patch and delete
handler succeeds on every such segment - the parse is total on routed
requests. -/
theorem c10_route_int_total (s : String) (h : routeSegMatches s = true) :
    (pyInt s).isSome = true := by
  have hand := h
  unfold routeSegMatches at hand
  rw [Bool.and_eq_true] at hand
  obtain ⟨hne, hall⟩ := hand
  have hne2 : s.data ≠ [] := by
    intro hnil
    rw [hnil] at hne
    simp at hne
  have h1 : s.data.dropWhile (fun c => c == ' ') = s.data :=
    dropWhileSpacesOfDigits s.data hne2 hall
  have hrevall : s.data.reverse.all Char.isDigit = true := by
    rw [List.all_eq_true] at hall ⊢
    intro c hc
    exact hall c (List.mem_reverse.mp hc)
  have hrevne : s.data.reverse ≠ [] := by simpa using hne2
  have h2 : s.data.reverse.dropWhile (fun c => c == ' ') = s.data.reverse :=
    dropWhileSpacesOfDigits s.data.reverse hrevne hrevall
  have htrim : ((s.data.dropWhile (fun c => c == ' ')).reverse.dropWhile
      (fun c => c == ' ')).reverse = s.data := by
    rw [h1, h2, List.reverse_reverse]
  unfold pyInt
  rw [htrim]
  cases hl : s.data with
  | nil => exact absurd hl hne2
  | cons c rest =>
    have hc : c.isDigit = true := by
      rw [hl] at hall
      exact List.all_eq_true.mp hall c (by simp)
    obtain ⟨-, hminus, hplus⟩ := digitNotSpecial c hc
    have hpd : parseDigits (c :: rest) = some ((c :: rest).foldl
        (fun acc ch => acc * 10 + (ch.toNat - 48)) 0) := by
      unfold parseDigits
      rw [if_pos]
      rw [← hl]
      simp only [hall, Bool.and_true]
      simp [hne2]
    simp [hminus, hplus, hpd]

/-- Witness for claim C10 at the segment 42. -/
theorem c10_route_int_total_witness :
    routeSegMatches "42" = true ∧ (pyInt "42").isSome = true :=
  ⟨by decide, c10_route_int_total "42" (by decide)⟩
